import Mathlib

/-!
Verification of the poster-composition engine in `src/anilist.py`.

The definitions below are a shallow embedding of the Python source.
Pure string/number computations are translated directly; PIL drawing
calls are modelled as explicit lists of drawing operations; text
measurement (which depends on the loaded font) is an explicit function
parameter `String → Nat`, with the source's no-getbbox fallback
`len(text) * 10` available as `widthTen`.  Python integer floor
division `//` is `Int.fdiv` (or `Nat` division where operands are
provably non-negative); Python float arithmetic on image aspect ratios
is modelled by exact rational arithmetic with truncation, i.e. `Nat`
floor division.  Reads of the externally mutable module-level global
`CHANNEL_NAME` are modelled by an explicit read stream
`reads : Nat → String` giving the value seen by the n-th read.
-/

/-! ### Layout constants (anilist.py lines 96-103) -/

def POSTER_WIDTH : Nat := 1280

def POSTER_HEIGHT : Nat := 720

/-- int(POSTER_WIDTH * 0.60) = 768 (the float product is exactly 768.0). -/
def BLUR_AREA_WIDTH : Nat := 768

def IMAGE_AREA_WIDTH : Nat := POSTER_WIDTH - BLUR_AREA_WIDTH

def THUMBNAIL_SIZE : Nat := 80

def BOTTOM_SECTION_HEIGHT : Nat := 150

def GENRE_PADDING : Nat := 10

def GENRE_SPACING : Nat := 10

/-! ### The normalized media record

Fields mirror the keys of `anime_data` read by `create_custom_poster`
(lines 187, 217-223).  A `none` models a key that is absent from the
dict, so that Python's `.get(key, default)` takes its default. -/

structure AnimeData where
  english : Option String
  romaji : Option String
  bannerImage : Option String
  season : Option String
  seasonYear : Option Nat
  episodes : Option Nat
  fmtField : Option String
  averageScore : Option Nat
  genres : List String

/-! ### Python string primitives used by the source -/

/-- Python `a or b` on an optional string: `None` and `""` are falsy. -/
def pyOrS (a : Option String) (b : String) : String :=
  match a with
  | some s => if s = "" then b else s
  | none => b

/-- Python `str.capitalize()`: first character uppercased, the rest lowercased. -/
def pyCapitalize (s : String) : String :=
  match s.data with
  | [] => ""
  | c :: cs => String.mk (c.toUpper :: cs.map Char.toLower)

/-- Helper for `pyTitle`: the boolean records whether the previous
character was a letter (a cased character, for the ASCII alphabet). -/
def pyTitleAux : Bool → List Char → List Char
  | _, [] => []
  | prev, c :: cs => (if prev then c.toLower else c.toUpper) :: pyTitleAux c.isAlpha cs

/-- Python `str.title()`: a letter is uppercased when the previous
character is not a letter, lowercased otherwise. -/
def pyTitle (s : String) : String :=
  String.mk (pyTitleAux false s.data)

/-- Python `s.replace("_", " ")` (single-character replacement). -/
def replaceUnderscores (s : String) : String :=
  String.mk (s.data.map (fun c => if c = '_' then ' ' else c))

/-- Python truthiness of an optional string (`if banner_url:`). -/
def truthyS : Option String → Bool
  | none => false
  | some s => !(s == "")

/-! ### Title resolution

`poster_title` is line 217 of `create_custom_poster`:
  title = anime_data["title"].get("english") or anime_data["title"].get("romaji") or "No Title".
`show_result_title` is lines 421-429 of `show_result` (the browsing
caption, not the poster):
  romaji = media["title"].get("romaji", ""); english = media["title"].get("english", "")
  if english and romaji and english != romaji: title = english + " / " + romaji
  elif english: title = english
  else: title = romaji. -/

def poster_title (d : AnimeData) : String :=
  pyOrS d.english (pyOrS d.romaji "No Title")

def show_result_title (d : AnimeData) : String :=
  let e := d.english.getD ""
  let r := d.romaji.getD ""
  if e ≠ "" ∧ r ≠ "" ∧ e ≠ r then e ++ " / " ++ r
  else if e ≠ "" then e
  else r

/-- A record carrying only the two title fields. -/
def mkTitles (e r : Option String) : AnimeData :=
  ⟨e, r, none, none, none, none, none, none, []⟩

/-! ### Rating text (lines 222 and 262-273)

`rating = anime_data.get("averageScore", "N/A")`, then the drawn string
is the f-string `f"` followed by the rating and `%"`, i.e. the rating
rendered to text with "%" appended unconditionally. -/

def ratingValue (d : AnimeData) : String :=
  match d.averageScore with
  | some n => toString n
  | none => "N/A"

def rating_text (d : AnimeData) : String :=
  ratingValue d ++ "%"

/-! ### Metadata detail lines (lines 218-221 and 251-256) -/

/-- Line 218: `anime_data.get("season", "").capitalize() or "Unknown"`. -/
def seasonStr (d : AnimeData) : String :=
  let s := pyCapitalize (d.season.getD "")
  if s = "" then "Unknown" else s

/-- Line 219: `anime_data.get("seasonYear", "N/A")` rendered into the f-string. -/
def yearStr (d : AnimeData) : String :=
  match d.seasonYear with
  | some n => toString n
  | none => "N/A"

/-- Line 220: `anime_data.get("episodes", "N/A")` rendered into the f-string. -/
def episodesStr (d : AnimeData) : String :=
  match d.episodes with
  | some n => toString n
  | none => "N/A"

/-- Line 221: `anime_data.get("format", "N/A").replace("_", " ").title()`. -/
def mediaTypeStr (d : AnimeData) : String :=
  pyTitle (replaceUnderscores (d.fmtField.getD "N/A"))

/-- Lines 252-256: the fixed list of three metadata lines. -/
def detailLines (d : AnimeData) : List String :=
  ["Season: " ++ seasonStr d ++ " " ++ yearStr d,
   "Episodes: " ++ episodesStr d,
   "Type: " ++ mediaTypeStr d]

/-! ### Greedy title word-wrap (lines 226-245)

`get_text_dimensions` (lines 173-179) measures text with the loaded
font's `getbbox`, falling back to `(len(text) * 10, 20)` when the font
has no `getbbox`.  The measurement is therefore a parameter
`width : String → Nat`; `widthTen` is the source's fallback metric. -/

/-- The source's fallback text-width metric: `len(text) * 10`. -/
def widthTen : String → Nat := fun s => 10 * s.length

/-- Python `title.split()`: split on whitespace runs, dropping empty pieces. -/
def splitWordsAux : List Char → List Char → List (List Char)
  | [], acc => if acc = [] then [] else [acc.reverse]
  | c :: cs, acc =>
    if c.isWhitespace then
      if acc = [] then splitWordsAux cs []
      else acc.reverse :: splitWordsAux cs []
    else splitWordsAux cs (c :: acc)

def splitWords (s : String) : List String :=
  (splitWordsAux s.data []).map String.mk

/-- `max_title_width = BLUR_AREA_WIDTH - 100` (line 226). -/
def maxTitleWidth : Nat := BLUR_AREA_WIDTH - 100

/-- Line 232: the candidate line.  Python builds it as the f-string of
current line, space, word, then strips; the strip is the identity
because split() words contain no whitespace, and when the current line
is empty the candidate is the bare word. -/
def testLine (cur w : String) : String :=
  if cur = "" then w else cur ++ " " ++ w

/-- Lines 238-239: `if current_line: title_lines.append(current_line)`. -/
def commitLine (lines : List String) (cur : String) : List String :=
  if cur = "" then lines else lines ++ [cur]

/-- The word loop of lines 231-242.  State: the committed lines and the
line under construction.  The `break` with `current_line = word` is
modelled by returning the pair as soon as the committed lines reach 3. -/
def wrapGo (width : String → Nat) (maxW : Nat) :
    List String → List String → String → List String × String
  | [], lines, cur => (lines, cur)
  | w :: ws, lines, cur =>
    if width (testLine cur w) ≤ maxW ∧ lines.length < 3 then
      wrapGo width maxW ws lines (testLine cur w)
    else
      if 3 ≤ (commitLine lines cur).length then (commitLine lines cur, w)
      else wrapGo width maxW ws (commitLine lines cur) w

/-- Lines 227-245: the wrap loop followed by the final
`if current_line and len(title_lines) < 3: title_lines.append(current_line)`. -/
def wrapWords (width : String → Nat) (maxW : Nat) (ws : List String) : List String :=
  let r := wrapGo width maxW ws [] ""
  if r.2 ≠ "" ∧ r.1.length < 3 then r.1 ++ [r.2] else r.1

def wrapTitle (width : String → Nat) (title : String) : List String :=
  wrapWords width maxTitleWidth (splitWords title)

/-! ### Genre chip flow layout (lines 275-300)

`w` and `h` are the text bounding-box width and height of a genre
under the genre font (`draw.textbbox`).  A chip's pill size pads the
text by `GENRE_PADDING` on all sides.  The layout starts at
`genre_x = title_x = 50` and at a vertical position `y` determined by
the rating block above it.  Each placed chip is recorded as
(genre, pill x, pill y). -/

def chipGo (w h : String → Nat) : Nat → Nat → List String → List (String × Nat × Nat)
  | _, _, [] => []
  | x, y, g :: gs =>
    let bw := w g + 2 * GENRE_PADDING
    let bh := h g + 2 * GENRE_PADDING
    if BLUR_AREA_WIDTH - 50 < x + bw then
      (g, 50, y + bh + GENRE_SPACING) ::
        chipGo w h (50 + bw + GENRE_SPACING) (y + bh + GENRE_SPACING) gs
    else
      (g, x, y) :: chipGo w h (x + bw + GENRE_SPACING) y gs

/-- Lines 279-300: `for genre in genres[:4]: ...` starting at x = 50. -/
def placeChips (w h : String → Nat) (y0 : Nat) (genres : List String) :
    List (String × Nat × Nat) :=
  chipGo w h 50 y0 (genres.take 4)

/-- Sum of the padded pill widths of a genre list. -/
def sumBW (w : String → Nat) (gs : List String) : Nat :=
  (gs.map (fun g => w g + 2 * GENRE_PADDING)).sum

/-- Relation between consecutively placed chips: either the second chip
stays on the same row, or it starts a new row at the left margin with
the vertical cursor advanced by the second (incoming) chip's own pill
height plus the row gap. -/
def chipAdj (h : String → Nat) (p q : String × Nat × Nat) : Prop :=
  q.2.2 = p.2.2 ∨
    (q.2.1 = 50 ∧ q.2.2 = p.2.2 + (h q.1 + 2 * GENRE_PADDING) + GENRE_SPACING)

/-! ### Branding composer and the render call (lines 181-361)

Drawing is modelled as a list of operations; raster pastes and text
draws carry their target coordinates (Python `//` on possibly negative
values is floor division, hence `Int.fdiv`).  The module-level global
`CHANNEL_NAME` is externally mutable, so each of its syntactic uses is
a fresh read, modelled by `reads : Nat → String` (the value seen by
the n-th read of the global inside the branding block).  The
thumbnail sub-step failure (the `except` at line 334) is modelled by a
flag and is taken to fire at its first operation (`resize`, line 311),
before any read of the global. -/

inductive BrandOp where
  | pasteThumb (x y : Int)
  | drawText (s : String) (x y : Int)
deriving DecidableEq, Repr

/-- Lines 306 and 309-351: the y coordinate of the join caption and the
branding block beneath it.  `joinH` is the measured height of the fixed
caption text under the join font. -/
def brandingOps (wCh hCh : String → Nat) (joinH : Nat) (reads : Nat → String)
    (thumb thumbFails : Bool) : List BrandOp :=
  let joinY : Int := (POSTER_HEIGHT : Int) - (BOTTOM_SECTION_HEIGHT : Int) + 20
  if thumb then
    if thumbFails then
      [BrandOp.drawText (reads 1)
        (Int.fdiv ((BLUR_AREA_WIDTH : Int) - (wCh (reads 0) : Int)) 2)
        (joinY + (joinH : Int) + 20)]
    else
      let cw : Int := wCh (reads 0)
      let ch : Int := hCh (reads 0)
      let gw : Int := (THUMBNAIL_SIZE : Int) + 20 + cw
      let gx : Int := Int.fdiv ((BLUR_AREA_WIDTH : Int) - gw) 2
      let gy : Int := joinY + (joinH : Int) + 20
      [BrandOp.pasteThumb gx gy,
       BrandOp.drawText (reads 1) (gx + (THUMBNAIL_SIZE : Int) + 20)
         (gy + Int.fdiv ((THUMBNAIL_SIZE : Int) - ch) 2)]
  else
    [BrandOp.drawText (reads 1)
      (Int.fdiv ((BLUR_AREA_WIDTH : Int) - (wCh (reads 0) : Int)) 2)
      (joinY + (joinH : Int) + 20)]

inductive RenderErr where
  | coverFetch
  | bannerFetch
deriving DecidableEq, Repr

structure RenderOutput where
  outW : Nat
  outH : Nat
  fmt : String
  quality : Nat
deriving DecidableEq, Repr

/-- Which fallible steps of a render call fail.  `coverFails` models an
exception in `download_image(cover_url)` (line 185), `bannerFails` one
in `download_image(banner_url)` (line 189, attempted only when
`bannerImage` is truthy), `thumbFails` one inside the optional
thumbnail sub-step (lines 310-333). -/
structure RenderFlags where
  coverFails : Bool
  bannerFails : Bool
  thumbFails : Bool

/-- `create_custom_poster` (lines 181-361): the outer `try` re-raises
every exception (line 361), except that a thumbnail-sub-step exception
is caught at line 334 and degrades to the centered channel-name
fallback.  A successful render builds the 1280x720 RGB canvas
(line 193) and serializes it as JPEG at quality 95 (line 354); the
branding block's drawing operations are returned alongside. -/
def create_custom_poster (wCh hCh : String → Nat) (joinH : Nat) (d : AnimeData)
    (thumb : Bool) (reads : Nat → String) (fl : RenderFlags) :
    Except RenderErr (RenderOutput × List BrandOp) :=
  if fl.coverFails then Except.error RenderErr.coverFetch
  else if truthyS d.bannerImage && fl.bannerFails then Except.error RenderErr.bannerFetch
  else Except.ok (⟨POSTER_WIDTH, POSTER_HEIGHT, "JPEG", 95⟩,
    brandingOps wCh hCh joinH reads thumb fl.thumbFails)

/-! ### Backdrop scaling and cropping (lines 199-212)

`banner_aspect = width / height` is a Python float; the truncating
conversions `int(target_height * banner_aspect)` and
`int(target_width / banner_aspect)` are modelled by exact `Nat` floor
division (the operands are positive). -/

/-- Lines 200-207: the (width, height) to which the backdrop is resized. -/
def backdropScaled (w h : Nat) : Nat × Nat :=
  let targetWidth := POSTER_HEIGHT * w / h
  if targetWidth < BLUR_AREA_WIDTH then
    (BLUR_AREA_WIDTH, BLUR_AREA_WIDTH * h / w)
  else (targetWidth, POSTER_HEIGHT)

/-- Lines 208-212: the center crop box (left, top, right, bottom). -/
def backdropCropBox (tw th : Nat) : Nat × Nat × Nat × Nat :=
  let left := (tw - BLUR_AREA_WIDTH) / 2
  let top := (th - POSTER_HEIGHT) / 2
  (left, top, left + BLUR_AREA_WIDTH, top + POSTER_HEIGHT)

/-! ### Concrete sample inputs used by witnesses and counterexamples -/

/-- A record in which every optional field is absent. -/
def emptyRecord : AnimeData :=
  ⟨none, none, none, none, none, none, none, none, []⟩

/-- A record whose only present field is an average score of 87. -/
def score87Record : AnimeData :=
  ⟨none, none, none, none, none, none, none, some 87, []⟩

/-- A single 67-character word, wider than the 668-pixel title budget
under the fallback metric. -/
def longWordA : String := String.mk (List.replicate 67 'a')

/-- Genre text widths that force the second chip to wrap. -/
def wSix : String → Nat := fun _ => 620

/-- Genre text heights that differ between the first and second chip. -/
def hVary : String → Nat := fun s => if s = "a" then 10 else 30

/-- Genre text widths whose four padded pills sum to 800 pixels. -/
def wFour : String → Nat := fun _ => 180

/-- A constant genre text height. -/
def hTen : String → Nat := fun _ => 10

/-- A read stream for the branding global: the first read (used for
centering) sees the old name, the second read (the drawn text) sees
the updated name — a concurrent `/cname` update between the two. -/
def readsUpd : Nat → String := fun i => if i = 0 then "A-Hub" else "AnimeHub"

/-! ### Invariants of the wrap loop -/

lemma commitLine_len (lines : List String) (cur : String) :
    (commitLine lines cur).length ≤ lines.length + 1 := by
  unfold commitLine
  split <;> simp

lemma wrapGo_len (width : String → Nat) (maxW : Nat) :
    ∀ (ws lines : List String) (cur : String), lines.length ≤ 2 →
      (wrapGo width maxW ws lines cur).1.length ≤ 3 := by
  intro ws
  induction ws with
  | nil =>
    intro lines cur hl
    simp only [wrapGo]
    omega
  | cons w ws ih =>
    intro lines cur hl
    have hcl := commitLine_len lines cur
    simp only [wrapGo]
    split
    · exact ih lines _ hl
    · split
      next h3 =>
        show (commitLine lines cur).length ≤ 3
        omega
      next h3 => exact ih _ w (by omega)

lemma wrapGo_width (width : String → Nat) (maxW : Nat) :
    ∀ (ws lines : List String) (cur : String),
      (∀ l ∈ lines, width l ≤ maxW) → (cur = "" ∨ width cur ≤ maxW) →
      (∀ w ∈ ws, width w ≤ maxW) →
      (∀ l ∈ (wrapGo width maxW ws lines cur).1, width l ≤ maxW) ∧
        ((wrapGo width maxW ws lines cur).2 = "" ∨
          width (wrapGo width maxW ws lines cur).2 ≤ maxW) := by
  intro ws
  induction ws with
  | nil =>
    intro lines cur hlines hcur hws
    simp only [wrapGo]
    exact ⟨hlines, hcur⟩
  | cons w ws ih =>
    intro lines cur hlines hcur hws
    have hw : width w ≤ maxW := hws w (List.mem_cons_self _ _)
    have hws' : ∀ x ∈ ws, width x ≤ maxW := fun x hx => hws x (List.mem_cons_of_mem _ hx)
    simp only [wrapGo]
    split
    next hc => exact ih lines _ hlines (Or.inr hc.1) hws'
    next hc =>
      have hlines' : ∀ l ∈ commitLine lines cur, width l ≤ maxW := by
        unfold commitLine
        split
        next => exact hlines
        next hcur0 =>
          intro l hl
          simp at hl
          rcases hl with hl | hl
          · exact hlines l hl
          · subst hl
            rcases hcur with hcc | hcc
            · exact absurd hcc hcur0
            · exact hcc
      split
      next h3 => exact ⟨hlines', Or.inr hw⟩
      next h3 => exact ih _ w hlines' (Or.inr hw) hws'

/-! ### Invariants of the chip layout -/

lemma chipGo_fst (w h : String → Nat) :
    ∀ (gs : List String) (x y : Nat),
      (chipGo w h x y gs).map (fun p => p.1) = gs := by
  intro gs
  induction gs with
  | nil => intro x y; simp [chipGo]
  | cons g gs ih =>
    intro x y
    simp only [chipGo]
    split
    · simp [ih]
    · simp [ih]

lemma chipGo_chain (w h : String → Nat) :
    ∀ (gs : List String) (x y : Nat) (p : String × Nat × Nat), p.2.2 = y →
      List.Chain (chipAdj h) p (chipGo w h x y gs) := by
  intro gs
  induction gs with
  | nil =>
    intro x y p hp
    simp only [chipGo]
    exact List.Chain.nil
  | cons g gs ih =>
    intro x y p hp
    simp only [chipGo]
    split
    · exact List.Chain.cons (Or.inr ⟨rfl, by rw [hp]⟩) (ih _ _ _ rfl)
    · exact List.Chain.cons (Or.inl hp.symm) (ih _ _ _ rfl)

lemma chipGo_chain' (w h : String → Nat) (gs : List String) (x y : Nat) :
    List.Chain' (chipAdj h) (chipGo w h x y gs) := by
  cases gs with
  | nil => simp [chipGo]
  | cons g gs =>
    simp only [chipGo]
    split
    · exact chipGo_chain w h gs _ _ _ rfl
    · exact chipGo_chain w h gs _ _ _ rfl

lemma chipGo_nowrap (w h : String → Nat) :
    ∀ (gs : List String) (g : String) (x y : Nat),
      (∀ p ∈ chipGo w h x y (g :: gs), p.2.2 = y) →
      x + sumBW w (g :: gs) + GENRE_SPACING * gs.length ≤ BLUR_AREA_WIDTH - 50 := by
  intro gs
  induction gs with
  | nil =>
    intro g x y hall
    simp only [chipGo] at hall
    split at hall
    next hc =>
      exfalso
      have hmem := hall _ (List.mem_cons_self _ _)
      simp only [GENRE_PADDING, GENRE_SPACING] at hmem
      omega
    next hc =>
      simp only [sumBW, List.map_cons, List.map_nil, List.sum_cons, List.sum_nil,
        GENRE_PADDING, GENRE_SPACING, BLUR_AREA_WIDTH, List.length_nil] at hc ⊢
      omega
  | cons g2 gs ih =>
    intro g x y hall
    simp only [chipGo] at hall
    split at hall
    next hc =>
      exfalso
      have hmem := hall _ (List.mem_cons_self _ _)
      simp only [GENRE_PADDING, GENRE_SPACING] at hmem
      omega
    next hc =>
      have htail := ih g2 (x + (w g + 2 * GENRE_PADDING) + GENRE_SPACING) y
        (fun p hp => hall p (List.mem_cons_of_mem _ hp))
      simp only [sumBW, List.map_cons, List.sum_cons, GENRE_PADDING, GENRE_SPACING,
        BLUR_AREA_WIDTH, List.length_cons] at htail ⊢
      omega

/-! ## Claim theorems -/

/-- C1 counterexample: with English "Attack on Titan" and romanized
"Shingeki no Kyojin" both present and different, the title rendered on
the poster (line 217) is the English title alone, not the claimed
concatenation "Attack on Titan / Shingeki no Kyojin". -/
theorem poster_title_no_concat :
    poster_title (mkTitles (some "Attack on Titan") (some "Shingeki no Kyojin")) =
      "Attack on Titan" ∧
    poster_title (mkTitles (some "Attack on Titan") (some "Shingeki no Kyojin")) ≠
      "Attack on Titan / Shingeki no Kyojin" := by
  constructor
  · decide
  · decide

/-- C1 (amended): the title rendered on the poster is the English title
alone when it is present and non-empty, else the romanized title when
present and non-empty, else the literal "No Title"; the
"English / romanized" concatenation appears only in the search-result
browsing caption (`show_result`), which renders the empty string when
neither title is present. -/
theorem poster_title_resolution (e r : Option String) :
    (∀ s, e = some s → s ≠ "" → poster_title (mkTitles e r) = s) ∧
    ((e = none ∨ e = some "") →
      ∀ s, r = some s → s ≠ "" → poster_title (mkTitles e r) = s) ∧
    ((e = none ∨ e = some "") → (r = none ∨ r = some "") →
      poster_title (mkTitles e r) = "No Title") ∧
    (∀ s t, s ≠ "" → t ≠ "" → s ≠ t →
      show_result_title (mkTitles (some s) (some t)) = s ++ " / " ++ t) ∧
    show_result_title (mkTitles none none) = "" := by
  refine ⟨?_, ?_, ?_, ?_, by decide⟩
  · intro s hs hne
    subst hs
    simp [poster_title, mkTitles, pyOrS, hne]
  · intro he s hs hne
    subst hs
    rcases he with he | he <;> subst he <;> simp [poster_title, mkTitles, pyOrS, hne]
  · intro he hr
    rcases he with he | he <;> rcases hr with hr | hr <;> subst he <;> subst hr <;>
      simp [poster_title, mkTitles, pyOrS]
  · intro s t hs ht hne
    simp [show_result_title, mkTitles, hs, ht, hne]

/-- C1 witness: the amended resolution at concrete titles. -/
theorem poster_title_resolution_witness :
    poster_title (mkTitles (some "A") (some "B")) = "A" ∧
    show_result_title (mkTitles (some "A") (some "B")) = "A / B" := by
  constructor
  · exact (poster_title_resolution (some "A") (some "B")).1 "A" rfl (by decide)
  · exact (poster_title_resolution (some "A") (some "B")).2.2.2.1 "A" "B"
      (by decide) (by decide) (by decide)

/-- C2 counterexample: a title that is a single 67-character word is
committed as one rendered line whose measured width under the source's
own fallback metric (`len * 10`, line 179) is 670 pixels, exceeding
the `panelWidth - 100 = 668` pixel budget. -/
theorem title_wrap_overwide_line :
    wrapTitle widthTen longWordA = [longWordA] ∧
    maxTitleWidth < widthTen longWordA := by
  constructor
  · decide
  · decide

/-- C2 (amended): for every width metric and title, at most 3 title
lines are committed (words beyond the cap are dropped); and whenever
every individual word of the title measures within the
`panelWidth - 100` budget, every rendered line also measures within
the budget (a single word wider than the budget is committed as its
own over-wide line, as the counterexample shows). -/
theorem title_wrap_bounds (width : String → Nat) (title : String) :
    (wrapTitle width title).length ≤ 3 ∧
    ((∀ w ∈ splitWords title, width w ≤ maxTitleWidth) →
      ∀ l ∈ wrapTitle width title, width l ≤ maxTitleWidth) := by
  constructor
  · show (wrapWords width maxTitleWidth (splitWords title)).length ≤ 3
    have h := wrapGo_len width maxTitleWidth (splitWords title) [] "" (by simp)
    simp only [wrapWords]
    split
    next hg =>
      have := hg.2
      simp only [List.length_append, List.length_singleton]
      omega
    next hg => exact h
  · intro hws l hl
    have h := wrapGo_width width maxTitleWidth (splitWords title) [] ""
      (by simp) (Or.inl rfl) hws
    simp only [wrapTitle, wrapWords] at hl
    split at hl
    next hg =>
      rcases List.mem_append.mp hl with hl | hl
      · exact h.1 l hl
      · rcases h.2 with h2 | h2
        · exact absurd h2 hg.1
        · rw [List.mem_singleton.mp hl]
          exact h2
    next hg => exact h.1 l hl

/-- C2 witness: the wrap bounds at a concrete metric and title. -/
theorem title_wrap_bounds_witness :
    (wrapTitle widthTen "hello world").length ≤ 3 ∧
    (∀ l ∈ wrapTitle widthTen "hello world", widthTen l ≤ maxTitleWidth) := by
  refine ⟨(title_wrap_bounds widthTen "hello world").1, ?_⟩
  exact (title_wrap_bounds widthTen "hello world").2 (by decide)

/-- C3 counterexample: with the score absent, the rating renderer draws
the string "N/A%" (line 263 appends the percent sign unconditionally),
not the claimed bare "N/A". -/
theorem rating_text_missing_score :
    rating_text emptyRecord = "N/A%" ∧ rating_text emptyRecord ≠ "N/A" := by
  constructor
  · decide
  · decide

/-- C3 (amended): a missing score renders as the literal "N/A%" (the
placeholder replaces the number, but the percent sign is still
appended); a score of 87 renders as "87%"; the rating text is a total
function of the record, so rendering never fails on a missing score. -/
theorem rating_text_values :
    rating_text emptyRecord = "N/A%" ∧ rating_text score87Record = "87%" := by
  constructor
  · decide
  · decide

/-- C4 counterexample: with the season absent, the period label renders
the season as "Unknown" (line 218), not as the claimed "N/A"
placeholder. -/
theorem detail_lines_missing_season :
    detailLines emptyRecord = ["Season: Unknown N/A", "Episodes: N/A", "Type: N/A"] ∧
    seasonStr emptyRecord ≠ "N/A" := by
  constructor
  · decide
  · decide

/-- C4 (amended): exactly three metadata lines (period label, episode
count, format label) are always rendered in that order; a missing
year, episode count or format renders as the literal "N/A", while a
missing season renders as "Unknown" inside the period label; a line is
never omitted and the lines are total in the record. -/
theorem detail_lines_spec (d : AnimeData) :
    (detailLines d).length = 3 ∧
    detailLines d = ["Season: " ++ seasonStr d ++ " " ++ yearStr d,
      "Episodes: " ++ episodesStr d, "Type: " ++ mediaTypeStr d] ∧
    (d.seasonYear = none → yearStr d = "N/A") ∧
    (d.episodes = none → episodesStr d = "N/A") ∧
    (d.fmtField = none → mediaTypeStr d = "N/A") ∧
    (d.season = none → seasonStr d = "Unknown") := by
  refine ⟨rfl, rfl, ?_, ?_, ?_, ?_⟩
  · intro h
    simp [yearStr, h]
  · intro h
    simp [episodesStr, h]
  · intro h
    simp only [mediaTypeStr, h]
    decide
  · intro h
    simp only [seasonStr, h]
    decide

/-- C4 witness: the metadata lines at a record with every field absent. -/
theorem detail_lines_spec_witness :
    (detailLines emptyRecord).length = 3 ∧ yearStr emptyRecord = "N/A" ∧
    episodesStr emptyRecord = "N/A" ∧ mediaTypeStr emptyRecord = "N/A" ∧
    seasonStr emptyRecord = "Unknown" := by
  refine ⟨(detail_lines_spec emptyRecord).1, ?_, ?_, ?_, ?_⟩
  · exact (detail_lines_spec emptyRecord).2.2.1 rfl
  · exact (detail_lines_spec emptyRecord).2.2.2.1 rfl
  · exact (detail_lines_spec emptyRecord).2.2.2.2.1 rfl
  · exact (detail_lines_spec emptyRecord).2.2.2.2.2 rfl

/-- C5 counterexample: when the second chip wraps, the vertical cursor
advances by the incoming (second) chip's own pill height plus the row
gap — here 30 + 20 + 10 = 60 — and not by the current (first) row's
pill height plus the gap, which would be 10 + 20 + 10 = 40 as the
claim states. -/
theorem genre_chip_wrap_advance :
    placeChips wSix hVary 0 ["a", "b"] = [("a", 50, 0), ("b", 50, 60)] ∧
    (60 : Nat) ≠ 0 + (hVary "a" + 2 * GENRE_PADDING) + GENRE_SPACING := by
  constructor
  · decide
  · decide

/-- C5 (amended): at most the first 4 genres are rendered, in their
original order; consecutive chips either share a row or the later chip
starts a new row at the left margin with the vertical cursor advanced
by that incoming chip's own pill height plus the 10px row gap; and 4
genres whose combined padded widths exceed `panelWidth - 50` force at
least one chip off the initial row. -/
theorem genre_chip_layout (w h : String → Nat) (y0 : Nat) (gs : List String) :
    (placeChips w h y0 gs).map (fun p => p.1) = gs.take 4 ∧
    List.Chain' (chipAdj h) (placeChips w h y0 gs) ∧
    (gs.length = 4 → BLUR_AREA_WIDTH - 50 < sumBW w gs →
      ∃ p ∈ placeChips w h y0 gs, p.2.2 ≠ y0) := by
  refine ⟨chipGo_fst w h (gs.take 4) 50 y0, chipGo_chain' w h (gs.take 4) 50 y0, ?_⟩
  intro hlen hsum
  by_contra hno
  push_neg at hno
  have htake : gs.take 4 = gs := by
    rw [← hlen]
    exact List.take_length gs
  obtain ⟨g, rest, rfl⟩ : ∃ g rest, gs = g :: rest := by
    cases gs with
    | nil => simp at hlen
    | cons a l => exact ⟨a, l, rfl⟩
  have hall : ∀ p ∈ chipGo w h 50 y0 (g :: rest), p.2.2 = y0 := by
    intro p hp
    exact hno p (by simpa [placeChips, htake] using hp)
  have hb := chipGo_nowrap w h rest g 50 y0 hall
  have hlen' : rest.length = 3 := by simpa using hlen
  simp only [GENRE_SPACING, BLUR_AREA_WIDTH, hlen'] at hb hsum
  omega

/-- C5 witness: four genres whose padded pills sum to 800 > 718 pixels
push at least one chip off the initial row. -/
theorem genre_chip_layout_witness :
    ∃ p ∈ placeChips wFour hTen 0 ["a", "b", "c", "d"], p.2.2 ≠ 0 :=
  (genre_chip_layout wFour hTen 0 ["a", "b", "c", "d"]).2.2 (by decide) (by decide)

/-- C6: rendering with no thumbnail raster never raises (given the
mandatory cover/banner fetches succeed, which a missing thumbnail does
not affect), and the branding block consists of the channel-name text
alone, horizontally centered in the left panel. -/
theorem no_thumbnail_fallback (wCh hCh : String → Nat) (joinH : Nat) (d : AnimeData)
    (name : String) (fl : RenderFlags)
    (hc : fl.coverFails = false) (hb : (truthyS d.bannerImage && fl.bannerFails) = false) :
    create_custom_poster wCh hCh joinH d false (fun _ => name) fl =
      Except.ok (⟨POSTER_WIDTH, POSTER_HEIGHT, "JPEG", 95⟩,
        [BrandOp.drawText name
          (Int.fdiv ((BLUR_AREA_WIDTH : Int) - (wCh name : Int)) 2)
          ((POSTER_HEIGHT : Int) - (BOTTOM_SECTION_HEIGHT : Int) + 20 + (joinH : Int) + 20)]) := by
  simp [create_custom_poster, hc, hb, brandingOps]

/-- C6 witness: the no-thumbnail fallback at a concrete record and name. -/
theorem no_thumbnail_fallback_witness :
    create_custom_poster widthTen widthTen 20 emptyRecord false (fun _ => "A-Hub")
        ⟨false, false, false⟩ =
      Except.ok (⟨POSTER_WIDTH, POSTER_HEIGHT, "JPEG", 95⟩,
        [BrandOp.drawText "A-Hub"
          (Int.fdiv ((BLUR_AREA_WIDTH : Int) - (widthTen "A-Hub" : Int)) 2)
          ((POSTER_HEIGHT : Int) - (BOTTOM_SECTION_HEIGHT : Int) + 20 + (20 : Int) + 20)]) :=
  no_thumbnail_fallback widthTen widthTen 20 emptyRecord "A-Hub" ⟨false, false, false⟩ rfl rfl

/-- C7: the render aborts with an error exactly when the cover fetch or
an attempted banner fetch fails — independently of the thumbnail
flag — and a failure inside the optional thumbnail sub-step degrades to
the no-thumbnail branding (channel name alone, centered) while the
render still succeeds; so thumbnail failures are the only failures
that degrade rather than abort. -/
theorem thumbnail_failure_degrades (wCh hCh : String → Nat) (joinH : Nat) (d : AnimeData)
    (reads : Nat → String) (fl : RenderFlags) :
    ((∃ e, create_custom_poster wCh hCh joinH d true reads fl = Except.error e) ↔
      (fl.coverFails = true ∨ (truthyS d.bannerImage && fl.bannerFails) = true)) ∧
    (fl.coverFails = false → (truthyS d.bannerImage && fl.bannerFails) = false →
      fl.thumbFails = true →
      create_custom_poster wCh hCh joinH d true reads fl =
        Except.ok (⟨POSTER_WIDTH, POSTER_HEIGHT, "JPEG", 95⟩,
          [BrandOp.drawText (reads 1)
            (Int.fdiv ((BLUR_AREA_WIDTH : Int) - (wCh (reads 0) : Int)) 2)
            ((POSTER_HEIGHT : Int) - (BOTTOM_SECTION_HEIGHT : Int) + 20 + (joinH : Int) + 20)])) := by
  constructor
  · cases hcf : fl.coverFails with
    | true => simp [create_custom_poster, hcf]
    | false =>
      cases hbf : (truthyS d.bannerImage && fl.bannerFails) with
      | true => simp [create_custom_poster, hcf, hbf]
      | false => simp [create_custom_poster, hcf, hbf]
  · intro h1 h2 h3
    simp [create_custom_poster, h1, h2, h3, brandingOps]

/-- C7 witness: a thumbnail-sub-step failure at a concrete input still
renders, with the centered channel-name fallback. -/
theorem thumbnail_failure_degrades_witness :
    create_custom_poster widthTen widthTen 20 emptyRecord true (fun _ => "A-Hub")
        ⟨false, false, true⟩ =
      Except.ok (⟨POSTER_WIDTH, POSTER_HEIGHT, "JPEG", 95⟩,
        [BrandOp.drawText "A-Hub"
          (Int.fdiv ((BLUR_AREA_WIDTH : Int) - (widthTen "A-Hub" : Int)) 2)
          ((POSTER_HEIGHT : Int) - (BOTTOM_SECTION_HEIGHT : Int) + 20 + (20 : Int) + 20)]) :=
  (thumbnail_failure_degrades widthTen widthTen 20 emptyRecord (fun _ => "A-Hub")
    ⟨false, false, true⟩).2 rfl rfl rfl

/-- C8: evaluation at the failing input.  The branding global is read
once for the centering measurement and again for the draw call
(lines 345 and 347), so a concurrent update between the two reads
draws the new name "AnimeHub" at x = 359, the centering computed for
the old name "A-Hub", while the consistent centering for "AnimeHub"
would be x = 344 — a partially inconsistent mix the claim says cannot
occur. -/
theorem branding_reread_mixed_poster :
    brandingOps widthTen widthTen 20 readsUpd false false =
      [BrandOp.drawText "AnimeHub" 359 630] ∧
    Int.fdiv ((BLUR_AREA_WIDTH : Int) - (widthTen "AnimeHub" : Int)) 2 = 344 ∧
    (359 : Int) ≠ 344 := by
  refine ⟨?_, by decide, by decide⟩
  decide

/-- C9: for a backdrop of positive dimensions, the scaled size keeps the
height at 720 with width at least 768 when the height-scaled width is
wide enough, and otherwise fixes the width at 768 with the height
grown proportionally (to at least 720); in both cases the scaled size
covers the left panel, and the center crop box measures exactly
768 x 720 and lies within the scaled image. -/
theorem backdrop_scale_crop (w h : Nat) (hw : 0 < w) (hh : 0 < h) :
    (BLUR_AREA_WIDTH ≤ (backdropScaled w h).1 ∧
      POSTER_HEIGHT ≤ (backdropScaled w h).2) ∧
    (BLUR_AREA_WIDTH ≤ POSTER_HEIGHT * w / h →
      (backdropScaled w h).1 = POSTER_HEIGHT * w / h ∧
      (backdropScaled w h).2 = POSTER_HEIGHT) ∧
    (POSTER_HEIGHT * w / h < BLUR_AREA_WIDTH →
      (backdropScaled w h).1 = BLUR_AREA_WIDTH ∧
      (backdropScaled w h).2 = BLUR_AREA_WIDTH * h / w) ∧
    (∀ tw th : Nat, BLUR_AREA_WIDTH ≤ tw → POSTER_HEIGHT ≤ th →
      (backdropCropBox tw th).2.2.1 - (backdropCropBox tw th).1 = BLUR_AREA_WIDTH ∧
      (backdropCropBox tw th).2.2.2 - (backdropCropBox tw th).2.1 = POSTER_HEIGHT ∧
      (backdropCropBox tw th).1 = (tw - BLUR_AREA_WIDTH) / 2 ∧
      (backdropCropBox tw th).2.1 = (th - POSTER_HEIGHT) / 2 ∧
      (backdropCropBox tw th).2.2.1 ≤ tw ∧ (backdropCropBox tw th).2.2.2 ≤ th) := by
  have hcrop : ∀ tw th : Nat, BLUR_AREA_WIDTH ≤ tw → POSTER_HEIGHT ≤ th →
      (backdropCropBox tw th).2.2.1 - (backdropCropBox tw th).1 = BLUR_AREA_WIDTH ∧
      (backdropCropBox tw th).2.2.2 - (backdropCropBox tw th).2.1 = POSTER_HEIGHT ∧
      (backdropCropBox tw th).1 = (tw - BLUR_AREA_WIDTH) / 2 ∧
      (backdropCropBox tw th).2.1 = (th - POSTER_HEIGHT) / 2 ∧
      (backdropCropBox tw th).2.2.1 ≤ tw ∧ (backdropCropBox tw th).2.2.2 ≤ th := by
    intro tw th htw hth
    have hcb1 : (backdropCropBox tw th).1 = (tw - BLUR_AREA_WIDTH) / 2 := rfl
    have hcb2 : (backdropCropBox tw th).2.1 = (th - POSTER_HEIGHT) / 2 := rfl
    have hcb3 : (backdropCropBox tw th).2.2.1 =
      (tw - BLUR_AREA_WIDTH) / 2 + BLUR_AREA_WIDTH := rfl
    have hcb4 : (backdropCropBox tw th).2.2.2 =
      (th - POSTER_HEIGHT) / 2 + POSTER_HEIGHT := rfl
    rw [hcb1, hcb2, hcb3, hcb4]
    refine ⟨by omega, by omega, rfl, rfl, by omega, by omega⟩
  by_cases hlt : POSTER_HEIGHT * w / h < BLUR_AREA_WIDTH
  · have hs : backdropScaled w h = (BLUR_AREA_WIDTH, BLUR_AREA_WIDTH * h / w) := by
      simp [backdropScaled, hlt]
    have h1 : POSTER_HEIGHT * w < BLUR_AREA_WIDTH * h := (Nat.div_lt_iff_lt_mul hh).mp hlt
    have h2 : POSTER_HEIGHT ≤ BLUR_AREA_WIDTH * h / w :=
      (Nat.le_div_iff_mul_le hw).mpr (le_of_lt h1)
    rw [hs]
    exact ⟨⟨le_refl _, h2⟩, fun hge => absurd hlt (by omega), fun _ => ⟨rfl, rfl⟩, hcrop⟩
  · have hs : backdropScaled w h = (POSTER_HEIGHT * w / h, POSTER_HEIGHT) := by
      simp [backdropScaled, hlt]
    rw [hs]
    exact ⟨⟨by omega, le_refl _⟩, fun _ => ⟨rfl, rfl⟩,
      fun hgt => absurd hgt (by omega), hcrop⟩

/-- C9 witness: a 1000 x 500 backdrop scales to 1440 x 720 and the crop
box lies within it with exact 768 x 720 dimensions. -/
theorem backdrop_scale_crop_witness :
    (0 : Nat) < 1000 ∧ (0 : Nat) < 500 ∧
    BLUR_AREA_WIDTH ≤ (backdropScaled 1000 500).1 ∧
    POSTER_HEIGHT ≤ (backdropScaled 1000 500).2 := by
  refine ⟨by decide, by decide, ?_, ?_⟩
  · exact (backdrop_scale_crop 1000 500 (by decide) (by decide)).1.1
  · exact (backdrop_scale_crop 1000 500 (by decide) (by decide)).1.2

/-- C10: every successful render call produces the fixed output
contract — a 1280 x 720 canvas serialized as JPEG at quality 95 —
regardless of the record, thumbnail, branding reads or failure flags. -/
theorem output_fixed_geometry (wCh hCh : String → Nat) (joinH : Nat) (d : AnimeData)
    (thumb : Bool) (reads : Nat → String) (fl : RenderFlags)
    (out : RenderOutput) (ops : List BrandOp)
    (hok : create_custom_poster wCh hCh joinH d thumb reads fl = Except.ok (out, ops)) :
    out.outW = 1280 ∧ out.outH = 720 ∧ out.fmt = "JPEG" ∧ out.quality = 95 := by
  unfold create_custom_poster at hok
  split at hok
  · exact absurd hok (by simp)
  · split at hok
    · exact absurd hok (by simp)
    · rw [Except.ok.injEq, Prod.mk.injEq] at hok
      obtain ⟨h1, h2⟩ := hok
      subst h1
      exact ⟨rfl, rfl, rfl, rfl⟩

/-- C10 witness: the output contract at a concrete successful render. -/
theorem output_fixed_geometry_witness :
    ((⟨POSTER_WIDTH, POSTER_HEIGHT, "JPEG", 95⟩ : RenderOutput).outW = 1280) ∧
    ((⟨POSTER_WIDTH, POSTER_HEIGHT, "JPEG", 95⟩ : RenderOutput).outH = 720) ∧
    ((⟨POSTER_WIDTH, POSTER_HEIGHT, "JPEG", 95⟩ : RenderOutput).fmt = "JPEG") ∧
    ((⟨POSTER_WIDTH, POSTER_HEIGHT, "JPEG", 95⟩ : RenderOutput).quality = 95) :=
  output_fixed_geometry widthTen widthTen 0 emptyRecord false (fun _ => "")
    ⟨false, false, false⟩ ⟨POSTER_WIDTH, POSTER_HEIGHT, "JPEG", 95⟩
    (brandingOps widthTen widthTen 0 (fun _ => "") false false) rfl
